import Mathlib

/-!
Shallow embedding of the `/api/gemini` conversation pipeline of the
gemini-backend repository (src/server.js, Gemini variant at lines 160-222,
and src/unnamed/part_000 lines 62-138; the two variants are identical in all
the logic modelled here).

The Firestore chat collection is modelled as an append log of `StoredTurn`;
the `orderBy("timestamp","asc")` query is modelled as a stable insertion sort
by timestamp of the turns of one uid.  The Gemini SDK call
(`model.startChat({history, generationConfig}).sendMessage(prompt)`) is an
external collaborator and is modelled as an oracle function receiving exactly
the history, generation config and prompt the code passes, returning either
the reply text or an error message (`Except`).  `saveMessage`'s inner
Firestore `add` is modelled by an `Option String` failure parameter (`none` =
the write succeeds, `some e` = the write throws error `e`).
-/

/-- One chat document stored in Firestore under `users/{uid}/chats`
(fields written by `saveMessage`: role, text, timestamp). -/
structure StoredTurn where
  uid : String
  role : String
  text : String
  ts : Nat
deriving DecidableEq

/-- One element of the `history` array passed to `model.startChat`:
`\x7b role, parts: [\x7b text \x7d] \x7d` in the source. -/
structure HistEntry where
  role : String
  text : String
deriving DecidableEq

/-- One invocation of `saveMessage` (the Turn Recorder), recorded with its
arguments. -/
structure SaveCall where
  uid : String
  role : String
  text : String
deriving DecidableEq

/-- The JSON response sent by the `/api/gemini` handler, together with the
HTTP status.  Absent JSON keys are `none`. -/
structure Response where
  status : Nat
  success : Bool
  message : Option String
  reply : Option String
  isDemo : Option Bool
deriving DecidableEq

/-- The observable side effects of one `/api/gemini` request:
`saveMessage` invocations, Firestore history reads (by uid), the history
actually handed to the model, and the number of outbound model calls. -/
structure Effects where
  saveCalls : List SaveCall
  historyReads : List String
  historyUsed : Option (List HistEntry)
  modelCalls : Nat
deriving DecidableEq

/-- Everything one request produces: the response, the effects, and the
store contents after the request. -/
structure GeminiOutcome where
  response : Response
  effects : Effects
  finalStore : List StoredTurn
deriving DecidableEq

/-- Character-list prefix test (used by the substring test below). -/
def isPrefixChars : List Char → List Char → Bool
  | [], _ => true
  | _ :: _, [] => false
  | a :: t, b :: u => a == b && isPrefixChars t u

/-- Character-list substring test: does `pat` occur inside `s`? -/
def containsChars : List Char → List Char → Bool
  | [], pat => pat.isEmpty
  | a :: t, pat => isPrefixChars pat (a :: t) || containsChars t pat

/-- Model of JavaScript `s.includes(pat)` on strings. -/
def strContains (s pat : String) : Bool :=
  containsChars s.toList pat.toList

/-- Ordering of stored turns by the `timestamp` field (the sort key of the
`orderBy("timestamp", "asc")` query). -/
def tsLe (a b : StoredTurn) : Prop := a.ts ≤ b.ts

instance : DecidableRel tsLe :=
  fun a b => inferInstanceAs (Decidable (a.ts ≤ b.ts))

instance : IsTotal StoredTurn tsLe := ⟨fun a b => Nat.le_total a.ts b.ts⟩

instance : IsTrans StoredTurn tsLe := ⟨fun _ _ _ => Nat.le_trans⟩

/-- Model of `db.collection("users").doc(uid).collection("chats")
.orderBy("timestamp", "asc").get()`: the turns of `uid`, stably sorted
ascending by timestamp (ties keep insertion order). -/
def listOrdered (uid : String) (store : List StoredTurn) : List StoredTurn :=
  List.insertionSort tsLe (store.filter (fun t => t.uid == uid))

/-- Model of `role === "assistant" ? "model" : "user"` (src/server.js line
185, src/unnamed/part_000 line 88). -/
def geminiRole (role : String) : String :=
  if role == "assistant" then "model" else "user"

/-- Conversion of one stored turn into one history entry, as done inside the
`chatHistorySnapshot.docs.map` callback. -/
def convTurn (t : StoredTurn) : HistEntry :=
  ⟨geminiRole t.role, t.text⟩

/-- The history projection of the handler: fetch the uid's turns ordered by
timestamp, map the roles, then `history.pop()` the final element
(src/server.js lines 182-187, src/unnamed/part_000 lines 85-96). -/
def project (uid : String) (store : List StoredTurn) : List HistEntry :=
  ((listOrdered uid store).map convTurn).dropLast

/-- The fallible Firestore `add` inside `saveMessage`: either appends the
document or throws the injected error. -/
def addChat (failWith : Option String) (store : List StoredTurn)
    (uid role text : String) (ts : Nat) : Except String (List StoredTurn) :=
  match failWith with
  | some e => Except.error e
  | none => Except.ok (store ++ [⟨uid, role, text, ts⟩])

/-- Model of `saveMessage` (src/server.js lines 136-146, src/unnamed/part_000
lines 38-48): tries the Firestore `add`; on error it logs (`console.error`)
and swallows.  The outer `Except` layer is the exception channel to the
caller; the `Option String` in the payload is the logged error. -/
def saveMessage (failWith : Option String) (store : List StoredTurn)
    (uid role text : String) (ts : Nat) :
    Except String (List StoredTurn × Option String) :=
  match addChat failWith store uid role text ts with
  | Except.ok s => Except.ok (s, none)
  | Except.error e => Except.ok (store, some e)

/-- ASCII lower-casing of one character (model of what JavaScript
`toLowerCase` does on the ASCII range; the keyword searched for below is
pure ASCII). -/
def lowerChar (c : Char) : Char :=
  if 65 ≤ c.toNat ∧ c.toNat ≤ 90 then Char.ofNat (c.toNat + 32) else c

/-- Model of JavaScript `s.toLowerCase()`. -/
def jsToLower (s : String) : String :=
  String.mk (s.toList.map lowerChar)

/-- Model of `let tokenLimit = prompt.toLowerCase().includes("detail") ? 400
: 200` (src/server.js line 190, src/unnamed/part_000 lines 99-103). -/
def tokenLimit (prompt : String) : Nat :=
  if strContains (jsToLower prompt) "detail" then 400 else 200

/-- The `generationConfig` object passed to `model.startChat`. -/
structure GenerationBudget where
  maxOutputTokens : Nat
  temperature : ℚ
  topK : Nat
  topP : ℚ
deriving DecidableEq

/-- Model of the `generationConfig` built by the handler (src/server.js
lines 200-205, src/unnamed/part_000 lines 114-119). -/
def generationConfig (prompt : String) : GenerationBudget :=
  ⟨tokenLimit prompt, 0.7, 40, 0.95⟩

/-- Did the handler take the demo branch?  Model of
`!process.env.GEMINI_API_KEY || process.env.GEMINI_API_KEY === "demo-key"`
(a missing or empty key is falsy in JavaScript). -/
def falsyStr : Option String → Bool
  | none => true
  | some s => s == ""

/-- The full demo-branch condition on the configured key. -/
def isDemoMode (key : Option String) : Bool :=
  falsyStr key || key == some "demo-key"

/-- The demo reply template (src/server.js line 172, src/unnamed/part_000
line 74). -/
def demoResponseText (prompt : String) : String :=
  "I\x27m Gemini AI! You said: \"" ++ prompt ++
    "\". Please set your GEMINI_API_KEY in .env to get real AI responses."

/-- The fixed reply text of the `catch (apiError)` block. -/
def catchReply : String :=
  "Sorry, I encountered an error while generating a response. Please try again."

/-- The whole response sent by the `catch (apiError)` block (src/server.js
lines 214-221, src/unnamed/part_000 lines 130-137): status 500,
success false, fixed reply, isDemo false. -/
def catchResponse : Response :=
  ⟨500, false, none, some catchReply, some false⟩

/-- The code's handling of an invocation failure, as a function of the raw
error message: the `catch (apiError)` block logs the error and sends
`catchResponse`, independent of the message text. -/
def handleApiError (_rawMessage : String) : Response :=
  catchResponse

/-- The 400 rejection sent when prompt or uid is missing (src/server.js line
163, src/unnamed/part_000 line 65). -/
def rejectResponse : Response :=
  ⟨400, false, some "Prompt and UID required", none, none⟩

/-- The failure taxonomy of the specification's Failure Classifier. -/
inductive ErrorKind where
  | InvalidCredential
  | ModelUnavailable
  | QuotaExceeded
  | PermissionDenied
  | UnknownInvocationFailure
deriving DecidableEq

/-- Modelled from the spec: the Failure Classifier table of spec section 4.4
(substring matching over the raw message, checked in priority order, first
match wins).  No such classifier exists anywhere in src/; the code's actual
failure handling is `handleApiError` above.  This definition exists only to
be compared against the code. -/
def specClassify (msg : String) : ErrorKind × String :=
  if strContains msg "API key" || strContains msg "401" then
    (ErrorKind.InvalidCredential,
      "there\x27s an issue with the API key; check configuration")
  else if strContains msg "model" || strContains msg "404" then
    (ErrorKind.ModelUnavailable, "the model configuration needs to be updated")
  else if strContains msg "quota" || strContains msg "429" then
    (ErrorKind.QuotaExceeded, "the request quota has been exceeded")
  else if strContains msg "permission" || strContains msg "403" then
    (ErrorKind.PermissionDenied, "access was denied; check permissions")
  else
    (ErrorKind.UnknownInvocationFailure, "a technical issue occurred: " ++ msg)

/-- Model of the whole `app.post("/api/gemini")` handler (src/server.js
lines 160-222, src/unnamed/part_000 lines 62-138).

Parameters: `apiKey` is `process.env.GEMINI_API_KEY`; `failSave1`/`failSave2`
inject a Firestore failure into the first/second `saveMessage`; `ts1`/`ts2`
are the server timestamps assigned to the two writes; `store` is the chat
collection at request arrival; `modelFn` is the Gemini SDK oracle, applied
to exactly the history, generationConfig and prompt the code passes;
`promptO`/`uidO` are the request body fields (`none` = absent). -/
def handleGemini (apiKey : Option String) (failSave1 failSave2 : Option String)
    (ts1 ts2 : Nat) (store : List StoredTurn)
    (modelFn : List HistEntry → GenerationBudget → String → Except String String)
    (promptO uidO : Option String) : GeminiOutcome :=
  if falsyStr promptO || falsyStr uidO then
    ⟨rejectResponse, ⟨[], [], none, 0⟩, store⟩
  else
    let prompt := promptO.getD ""
    let uid := uidO.getD ""
    match saveMessage failSave1 store uid "user" prompt ts1 with
    | Except.error _ =>
        ⟨catchResponse, ⟨[⟨uid, "user", prompt⟩], [], none, 0⟩, store⟩
    | Except.ok (store1, _) =>
      if isDemoMode apiKey then
        let demoText := demoResponseText prompt
        match saveMessage failSave2 store1 uid "assistant" demoText ts2 with
        | Except.error _ =>
            ⟨catchResponse,
             ⟨[⟨uid, "user", prompt⟩, ⟨uid, "assistant", demoText⟩], [], none, 0⟩,
             store1⟩
        | Except.ok (store2, _) =>
            ⟨⟨200, true, none, some demoText, some true⟩,
             ⟨[⟨uid, "user", prompt⟩, ⟨uid, "assistant", demoText⟩], [], none, 0⟩,
             store2⟩
      else
        let hist := project uid store1
        match modelFn hist (generationConfig prompt) prompt with
        | Except.error _ =>
            ⟨catchResponse,
             ⟨[⟨uid, "user", prompt⟩], [uid], some hist, 1⟩, store1⟩
        | Except.ok text =>
            match saveMessage failSave2 store1 uid "assistant" text ts2 with
            | Except.error _ =>
                ⟨catchResponse,
                 ⟨[⟨uid, "user", prompt⟩, ⟨uid, "assistant", text⟩], [uid],
                  some hist, 1⟩,
                 store1⟩
            | Except.ok (store2, _) =>
                ⟨⟨200, true, none, some text, some false⟩,
                 ⟨[⟨uid, "user", prompt⟩, ⟨uid, "assistant", text⟩], [uid],
                  some hist, 1⟩,
                 store2⟩

/-! ## Helper lemmas -/

@[simp]
theorem saveMessage_none (store : List StoredTurn) (uid role text : String)
    (ts : Nat) :
    saveMessage none store uid role text ts =
      Except.ok (store ++ [⟨uid, role, text, ts⟩], none) := rfl

@[simp]
theorem saveMessage_some (e : String) (store : List StoredTurn)
    (uid role text : String) (ts : Nat) :
    saveMessage (some e) store uid role text ts = Except.ok (store, some e) := rfl

theorem falsyStr_some_eq_false {p : String} (h : p ≠ "") :
    falsyStr (some p) = false := by
  simp [falsyStr, h]

/-! ## Claim C6 -/

/-- Claim C6: the budget computation is a pure deterministic function of the
prompt string: the output-token budget is 400 iff the lower-cased prompt
contains the substring "detail" and 200 otherwise, and the sampling
parameters are always the fixed constants temperature 0.7 (= 7/10), top-K
40, top-P 0.95 (= 19/20). -/
theorem budget_policy_pure (p : String) :
    (tokenLimit p = 400 ↔ strContains (jsToLower p) "detail" = true)
    ∧ (tokenLimit p = 200 ↔ strContains (jsToLower p) "detail" = false)
    ∧ generationConfig p = ⟨tokenLimit p, 7/10, 40, 19/20⟩ := by
  refine ⟨?_, ?_, ?_⟩
  · by_cases h : strContains (jsToLower p) "detail" = true <;> simp [tokenLimit, h]
  · by_cases h : strContains (jsToLower p) "detail" = true <;> simp [tokenLimit, h]
  · have h1 : (0.7 : ℚ) = 7 / 10 := by norm_num
    have h2 : (0.95 : ℚ) = 19 / 20 := by norm_num
    simp [generationConfig, h1, h2]

/-! ## Claim C2 -/

/-- Claim C2 counterexample: the code has no failure classifier.  The
`catch (apiError)` block (`handleApiError`) sends the same fixed response
for every raw error message; in particular the response to an error whose
message contains "429" carries the fixed apology text, which mentions
neither a quota nor the matched token, while the specification's classifier
(`specClassify`) would classify "429" as QuotaExceeded and "401 404" as
InvalidCredential. -/
theorem classifier_absent_counterexample :
    specClassify "429" = (ErrorKind.QuotaExceeded, "the request quota has been exceeded")
    ∧ specClassify "got 401 after 404" =
        (ErrorKind.InvalidCredential, "there\x27s an issue with the API key; check configuration")
    ∧ handleApiError "429" = handleApiError "completely unrelated text"
    ∧ (handleApiError "429").reply = some catchReply
    ∧ strContains catchReply "quota" = false
    ∧ strContains catchReply "429" = false :=
  ⟨by decide, by decide, rfl, rfl, by decide, by decide⟩

/-- Claim C2 (amended): the code performs no substring classification of
invocation failures: the `catch (apiError)` block maps every raw error
message to the same fixed response (success false, fixed apology reply); it
never throws and always produces a user message, but derives no error
kind. -/
theorem failure_handling_is_constant (m1 m2 : String) :
    handleApiError m1 = catchResponse
    ∧ handleApiError m1 = handleApiError m2
    ∧ (handleApiError m1).reply = some catchReply
    ∧ (handleApiError m1).success = false :=
  ⟨rfl, rfl, rfl, rfl⟩

/-! ## Claim C3 -/

/-- Claim C3 counterexample: a classified invocation failure (here a model
error containing "429") is surfaced by the endpoint as a status-500 response
with success false — a hard error, not a successful envelope. -/
theorem failure_not_success_envelope_counterexample :
    (handleGemini (some "real-key") none none 10 11 []
      (fun _ _ _ => Except.error "429 RESOURCE_EXHAUSTED quota exceeded")
      (some "hello") (some "u9")).response.success = false
    ∧ (handleGemini (some "real-key") none none 10 11 []
      (fun _ _ _ => Except.error "429 RESOURCE_EXHAUSTED quota exceeded")
      (some "hello") (some "u9")).response.status = 500
    ∧ (handleGemini (some "real-key") none none 10 11 []
      (fun _ _ _ => Except.error "429 RESOURCE_EXHAUSTED quota exceeded")
      (some "hello") (some "u9")).response.reply = some catchReply :=
  ⟨rfl, rfl, rfl⟩

/-- Claim C3 (amended): every invocation failure is surfaced by the
`/api/gemini` endpoint as a status-500 response with success false carrying
the fixed safe templated reply (`catchResponse`) — a hard error, not a
successful envelope — while a missing prompt or uid produces the status-400
rejection. -/
theorem invocation_failure_surfacing
    (apiKey : String) (fs1 fs2 : Option String) (ts1 ts2 : Nat)
    (store : List StoredTurn)
    (modelFn : List HistEntry → GenerationBudget → String → Except String String)
    (p u : String)
    (hk : isDemoMode (some apiKey) = false) (hp : p ≠ "") (hu : u ≠ "")
    (herr : ∀ h b q, ∃ e, modelFn h b q = Except.error e) :
    (handleGemini (some apiKey) fs1 fs2 ts1 ts2 store modelFn
        (some p) (some u)).response = catchResponse
    ∧ ∀ p' u' : Option String, falsyStr p' = true ∨ falsyStr u' = true →
        (handleGemini (some apiKey) fs1 fs2 ts1 ts2 store modelFn
          p' u').response = rejectResponse := by
  constructor
  · cases fs1 with
    | none =>
        obtain ⟨e, he⟩ :=
          herr (project u (store ++ [⟨u, "user", p, ts1⟩])) (generationConfig p) p
        simp [handleGemini, falsyStr_some_eq_false hp, falsyStr_some_eq_false hu,
          hk, he]
    | some e1 =>
        obtain ⟨e, he⟩ := herr (project u store) (generationConfig p) p
        simp [handleGemini, falsyStr_some_eq_false hp, falsyStr_some_eq_false hu,
          hk, he]
  · intro p' u' h
    rcases h with h | h <;> simp [handleGemini, h]

/-- Witness for claim C3's amended theorem at a concrete failing model
call. -/
theorem invocation_failure_surfacing_witness :
    (handleGemini (some "configured") none none 0 1 []
      (fun _ _ _ => Except.error "boom") (some "hi") (some "u1")).response =
      catchResponse := by
  have h := invocation_failure_surfacing "configured" none none 0 1 []
    (fun _ _ _ => Except.error "boom") "hi" "u1" (by decide) (by decide)
    (by decide) (fun _ _ _ => ⟨"boom", rfl⟩)
  exact h.1

/-! ## Claim C1 -/

theorem orderedInsert_append_max (a x : StoredTurn) (s : List StoredTurn)
    (hax : tsLe a x) :
    List.orderedInsert tsLe a (s ++ [x]) = List.orderedInsert tsLe a s ++ [x] := by
  induction s with
  | nil => simp [List.orderedInsert, hax]
  | cons b t ih =>
      by_cases h : tsLe a b
      · simp [List.orderedInsert, h]
      · simp [List.orderedInsert, h, ih]

theorem insertionSort_append_max (x : StoredTurn) (l : List StoredTurn)
    (h : ∀ t ∈ l, tsLe t x) :
    List.insertionSort tsLe (l ++ [x]) = List.insertionSort tsLe l ++ [x] := by
  induction l with
  | nil => rfl
  | cons a t ih =>
      have ha : tsLe a x := h a (List.mem_cons_self a t)
      have ht : ∀ s ∈ t, tsLe s x := fun s hs => h s (List.mem_cons_of_mem a hs)
      calc List.insertionSort tsLe ((a :: t) ++ [x])
          = List.orderedInsert tsLe a (List.insertionSort tsLe (t ++ [x])) := rfl
        _ = List.orderedInsert tsLe a (List.insertionSort tsLe t ++ [x]) := by
              rw [ih ht]
        _ = List.orderedInsert tsLe a (List.insertionSort tsLe t) ++ [x] :=
              orderedInsert_append_max a x _ ha
        _ = List.insertionSort tsLe (a :: t) ++ [x] := rfl

/-- Claim C1: the history projection of the `/api/gemini` handler returns
the stored turns of the uid in non-decreasing timestamp order, maps role
"assistant" to model-role "model" and "user" to "user", and excludes exactly
the last element of the ordered stored thread; in particular, when the
just-persisted in-flight prompt carries the latest timestamp, the projected
transcript is exactly the projection of the prior turns, so it never
contains the current prompt. -/
theorem history_projection_correct (uid : String) (store : List StoredTurn) :
    List.Sorted tsLe (listOrdered uid store)
    ∧ project uid store = ((listOrdered uid store).dropLast).map convTurn
    ∧ (∀ t : StoredTurn, t.role = "assistant" → convTurn t = ⟨"model", t.text⟩)
    ∧ (∀ t : StoredTurn, t.role = "user" → convTurn t = ⟨"user", t.text⟩)
    ∧ (∀ cur : StoredTurn, cur.uid = uid →
        (∀ t ∈ store.filter (fun s => s.uid == uid), tsLe t cur) →
        project uid (store ++ [cur]) = (listOrdered uid store).map convTurn) := by
  refine ⟨?_, ?_, ?_, ?_, ?_⟩
  · exact List.sorted_insertionSort tsLe _
  · exact (List.map_dropLast convTurn _).symm
  · intro t h
    simp [convTurn, geminiRole, h]
  · intro t h
    simp [convTurn, geminiRole, h]
  · intro cur hcur hmax
    unfold project listOrdered
    rw [List.filter_append]
    have hc : List.filter (fun s => s.uid == uid) [cur] = [cur] := by
      simp [hcur]
    rw [hc, insertionSort_append_max cur _ hmax]
    simp

/-- Witness for claim C1's theorem: a concrete thread where the in-flight
prompt has the latest timestamp and is excluded by the projection, and a
concrete assistant turn mapped to "model". -/
theorem history_projection_correct_witness :
    project "u1" ([⟨"u1", "user", "first", 1⟩, ⟨"u1", "assistant", "reply", 2⟩]
        ++ [⟨"u1", "user", "current", 3⟩]) =
      (listOrdered "u1"
        [⟨"u1", "user", "first", 1⟩, ⟨"u1", "assistant", "reply", 2⟩]).map convTurn
    ∧ convTurn ⟨"u1", "assistant", "reply", 2⟩ = ⟨"model", "reply"⟩ := by
  have h := history_projection_correct "u1"
    [⟨"u1", "user", "first", 1⟩, ⟨"u1", "assistant", "reply", 2⟩]
  exact ⟨h.2.2.2.2 ⟨"u1", "user", "current", 3⟩ rfl (by decide),
    h.2.2.1 ⟨"u1", "assistant", "reply", 2⟩ rfl⟩

/-! ## Claim C10 -/

/-- Claim C10: the role remapping is total over arbitrary stored role
strings — any role other than exactly "assistant" (including malformed
values) maps to "user" — and therefore every element of the produced
transcript has role "user" or "model". -/
theorem projected_roles_total (uid : String) (store : List StoredTurn) :
    (∀ r : String, r ≠ "assistant" → geminiRole r = "user")
    ∧ (∀ e ∈ project uid store, e.role = "user" ∨ e.role = "model") := by
  constructor
  · intro r h
    simp [geminiRole, h]
  · intro e he
    have he' : e ∈ (listOrdered uid store).map convTurn :=
      (List.dropLast_sublist ((listOrdered uid store).map convTurn)).subset he
    obtain ⟨t, -, rfl⟩ := List.mem_map.mp he'
    by_cases h : t.role = "assistant"
    · right
      simp [convTurn, geminiRole, h]
    · left
      simp [convTurn, geminiRole, h]

/-- Witness for claim C10's theorem: a malformed stored role "weird" maps to
"user", and a concrete projected element has a role in the allowed set. -/
theorem projected_roles_total_witness :
    geminiRole "weird" = "user"
    ∧ ((⟨"user", "x"⟩ : HistEntry).role = "user"
        ∨ (⟨"user", "x"⟩ : HistEntry).role = "model") := by
  have h := projected_roles_total "u1"
    [⟨"u1", "weird", "x", 0⟩, ⟨"u1", "user", "y", 1⟩]
  exact ⟨h.1 "weird" (by decide), h.2 ⟨"user", "x"⟩ (by decide)⟩

/-! ## Claim C4 -/

/-- Claim C4 counterexample: an accepted request (non-empty prompt and uid,
configured key) whose model invocation fails produces the classified-failure
fallback reply, yet `saveMessage` is invoked exactly once (for the user
prompt) — the fallback text is never persisted — refuting "exactly twice
regardless of ... the classified-failure fallback text". -/
theorem turn_recorder_twice_counterexample :
    falsyStr (some "what is recursion") = false
    ∧ falsyStr (some "u4") = false
    ∧ (handleGemini (some "configured-key") none none 5 6 []
        (fun _ _ _ => Except.error "500 internal") (some "what is recursion")
        (some "u4")).response.reply = some catchReply
    ∧ (handleGemini (some "configured-key") none none 5 6 []
        (fun _ _ _ => Except.error "500 internal") (some "what is recursion")
        (some "u4")).effects.saveCalls = [⟨"u4", "user", "what is recursion"⟩]
    ∧ (handleGemini (some "configured-key") none none 5 6 []
        (fun _ _ _ => Except.error "500 internal") (some "what is recursion")
        (some "u4")).effects.saveCalls.length ≠ 2 := by
  refine ⟨rfl, rfl, rfl, rfl, by decide⟩

/-- Claim C4 (amended): `saveMessage` is invoked exactly twice (user prompt
then reply) for an accepted request whose reply comes from the demo path or
from a successful model call, but exactly once (the user prompt only) when
the model invocation fails — the fallback reply is not persisted — and zero
times for a rejected request. -/
theorem turn_recorder_invocation_counts
    (apiKey fs1 fs2 : Option String) (ts1 ts2 : Nat) (store : List StoredTurn)
    (modelFn : List HistEntry → GenerationBudget → String → Except String String)
    (promptO uidO : Option String) :
    (falsyStr promptO = true ∨ falsyStr uidO = true →
      (handleGemini apiKey fs1 fs2 ts1 ts2 store modelFn
        promptO uidO).effects.saveCalls = [])
    ∧ (falsyStr promptO = false → falsyStr uidO = false →
      isDemoMode apiKey = true →
      (handleGemini apiKey fs1 fs2 ts1 ts2 store modelFn
          promptO uidO).effects.saveCalls =
        [⟨uidO.getD "", "user", promptO.getD ""⟩,
         ⟨uidO.getD "", "assistant", demoResponseText (promptO.getD "")⟩])
    ∧ (falsyStr promptO = false → falsyStr uidO = false →
      isDemoMode apiKey = false →
      (∀ h b q, ∃ t, modelFn h b q = Except.ok t) →
      (handleGemini apiKey fs1 fs2 ts1 ts2 store modelFn
          promptO uidO).effects.saveCalls.length = 2
      ∧ (handleGemini apiKey fs1 fs2 ts1 ts2 store modelFn
          promptO uidO).effects.saveCalls.map (fun c => c.role) =
          ["user", "assistant"])
    ∧ (falsyStr promptO = false → falsyStr uidO = false →
      isDemoMode apiKey = false →
      (∀ h b q, ∃ e, modelFn h b q = Except.error e) →
      (handleGemini apiKey fs1 fs2 ts1 ts2 store modelFn
          promptO uidO).effects.saveCalls =
        [⟨uidO.getD "", "user", promptO.getD ""⟩]) := by
  refine ⟨?_, ?_, ?_, ?_⟩
  · intro h
    rcases h with h | h <;> simp [handleGemini, h]
  · intro hp hu hk
    cases fs1 <;> cases fs2 <;> simp [handleGemini, hp, hu, hk]
  · intro hp hu hk hok
    cases fs1 with
    | none =>
        obtain ⟨t, ht⟩ := hok
          (project (uidO.getD "")
            (store ++ [⟨uidO.getD "", "user", promptO.getD "", ts1⟩]))
          (generationConfig (promptO.getD "")) (promptO.getD "")
        cases fs2 <;> simp [handleGemini, hp, hu, hk, ht]
    | some e1 =>
        obtain ⟨t, ht⟩ := hok (project (uidO.getD "") store)
          (generationConfig (promptO.getD "")) (promptO.getD "")
        cases fs2 <;> simp [handleGemini, hp, hu, hk, ht]
  · intro hp hu hk herr
    cases fs1 with
    | none =>
        obtain ⟨e, he⟩ := herr
          (project (uidO.getD "")
            (store ++ [⟨uidO.getD "", "user", promptO.getD "", ts1⟩]))
          (generationConfig (promptO.getD "")) (promptO.getD "")
        simp [handleGemini, hp, hu, hk, he]
    | some e1 =>
        obtain ⟨e, he⟩ := herr (project (uidO.getD "") store)
          (generationConfig (promptO.getD "")) (promptO.getD "")
        simp [handleGemini, hp, hu, hk, he]

/-- Witness for claim C4's amended theorem: on a concrete accepted
demo-path request, `saveMessage` is invoked exactly twice, for the user
prompt and the demo reply. -/
theorem turn_recorder_invocation_counts_witness :
    (handleGemini none none none 0 1 [] (fun _ _ _ => Except.error "never")
        (some "hey") (some "u2")).effects.saveCalls =
      [⟨"u2", "user", "hey"⟩, ⟨"u2", "assistant", demoResponseText "hey"⟩] := by
  have h := turn_recorder_invocation_counts none none none 0 1 []
    (fun _ _ _ => Except.error "never") (some "hey") (some "u2")
  exact h.2.1 (by decide) (by decide) (by decide)

/-! ## Claim C5 -/

/-- Claim C5: when the model credential is absent, empty, or the placeholder
sentinel "demo-key", an accepted request takes the demo branch: the response
has success true and isDemo true, the reply contains the prompt verbatim as
a substring, zero outbound model calls are made, and the path never fails
(this holds even when the persistence writes fail). -/
theorem demo_mode_behavior
    (apiKey fs1 fs2 : Option String) (ts1 ts2 : Nat) (store : List StoredTurn)
    (modelFn : List HistEntry → GenerationBudget → String → Except String String)
    (promptO uidO : Option String)
    (hk : isDemoMode apiKey = true)
    (hp : falsyStr promptO = false) (hu : falsyStr uidO = false) :
    (handleGemini apiKey fs1 fs2 ts1 ts2 store modelFn
        promptO uidO).response.success = true
    ∧ (handleGemini apiKey fs1 fs2 ts1 ts2 store modelFn
        promptO uidO).response.isDemo = some true
    ∧ (handleGemini apiKey fs1 fs2 ts1 ts2 store modelFn
        promptO uidO).response.reply = some (demoResponseText (promptO.getD ""))
    ∧ (∃ a b, demoResponseText (promptO.getD "") = a ++ promptO.getD "" ++ b)
    ∧ (handleGemini apiKey fs1 fs2 ts1 ts2 store modelFn
        promptO uidO).effects.modelCalls = 0
    ∧ (handleGemini apiKey fs1 fs2 ts1 ts2 store modelFn
        promptO uidO).effects.historyReads = [] := by
  refine ⟨?_, ?_, ?_,
    ⟨"I\x27m Gemini AI! You said: \"",
     "\". Please set your GEMINI_API_KEY in .env to get real AI responses.",
     rfl⟩, ?_, ?_⟩ <;>
    cases fs1 <;> cases fs2 <;> simp [handleGemini, hp, hu, hk]

/-- Witness for claim C5's theorem at a concrete unconfigured-key request. -/
theorem demo_mode_behavior_witness :
    (handleGemini none none none 3 4 []
        (fun _ _ _ => Except.error "no network") (some "hello")
        (some "u5")).response.isDemo = some true
    ∧ (handleGemini none none none 3 4 []
        (fun _ _ _ => Except.error "no network") (some "hello")
        (some "u5")).effects.modelCalls = 0 := by
  have h := demo_mode_behavior none none none 3 4 []
    (fun _ _ _ => Except.error "no network") (some "hello") (some "u5")
    (by decide) (by decide) (by decide)
  exact ⟨h.2.1, h.2.2.2.2.1⟩

/-! ## Claim C7 -/

/-- Claim C7: a request with missing (absent or empty) prompt or uid is
rejected immediately with the status-400 failure response, with no
`saveMessage` invocation, no history read, no model call, and the store left
unchanged. -/
theorem missing_input_rejection
    (apiKey fs1 fs2 : Option String) (ts1 ts2 : Nat) (store : List StoredTurn)
    (modelFn : List HistEntry → GenerationBudget → String → Except String String)
    (promptO uidO : Option String)
    (h : falsyStr promptO = true ∨ falsyStr uidO = true) :
    (handleGemini apiKey fs1 fs2 ts1 ts2 store modelFn promptO uidO).response =
      rejectResponse
    ∧ (handleGemini apiKey fs1 fs2 ts1 ts2 store modelFn
        promptO uidO).effects.saveCalls = []
    ∧ (handleGemini apiKey fs1 fs2 ts1 ts2 store modelFn
        promptO uidO).effects.modelCalls = 0
    ∧ (handleGemini apiKey fs1 fs2 ts1 ts2 store modelFn
        promptO uidO).effects.historyReads = []
    ∧ (handleGemini apiKey fs1 fs2 ts1 ts2 store modelFn
        promptO uidO).finalStore = store := by
  rcases h with h | h <;> simp [handleGemini, h]

/-- Witness for claim C7's theorem: a concrete request with an absent uid is
rejected and the store is untouched. -/
theorem missing_input_rejection_witness :
    (handleGemini (some "k") none none 0 1 [⟨"u", "user", "x", 0⟩]
        (fun _ _ _ => Except.ok "y") (some "hi") none).finalStore =
      [⟨"u", "user", "x", 0⟩]
    ∧ (handleGemini (some "k") none none 0 1 [⟨"u", "user", "x", 0⟩]
        (fun _ _ _ => Except.ok "y") (some "hi") none).effects.saveCalls = [] := by
  have h := missing_input_rejection (some "k") none none 0 1
    [⟨"u", "user", "x", 0⟩] (fun _ _ _ => Except.ok "y") (some "hi") none
    (Or.inr (by decide))
  exact ⟨h.2.2.2.2, h.2.1⟩

/-! ## Claim C8 -/

/-- Claim C8: `saveMessage` is best-effort: for every input it returns
normally (never throws to its caller); a persistence failure leaves the
store unchanged and is logged (the swallowed error), a success appends the
turn; consequently a failed history write never prevents the user-visible
reply (shown on the demo path, which succeeds with its reply for arbitrary
injected write failures). -/
theorem save_message_best_effort
    (failWith : Option String) (store : List StoredTurn)
    (uid role text : String) (ts : Nat) :
    (∃ out, saveMessage failWith store uid role text ts = Except.ok out)
    ∧ (∀ e, failWith = some e →
        saveMessage failWith store uid role text ts = Except.ok (store, some e))
    ∧ (failWith = none →
        saveMessage failWith store uid role text ts =
          Except.ok (store ++ [⟨uid, role, text, ts⟩], none))
    ∧ (∀ (apiKey fs1 fs2 : Option String) (ts1 ts2 : Nat)
        (st : List StoredTurn)
        (modelFn : List HistEntry → GenerationBudget → String → Except String String)
        (promptO uidO : Option String),
        falsyStr promptO = false → falsyStr uidO = false →
        isDemoMode apiKey = true →
        (handleGemini apiKey fs1 fs2 ts1 ts2 st modelFn
            promptO uidO).response.success = true
        ∧ (handleGemini apiKey fs1 fs2 ts1 ts2 st modelFn
            promptO uidO).response.reply =
            some (demoResponseText (promptO.getD ""))) := by
  refine ⟨?_, ?_, ?_, ?_⟩
  · cases failWith <;> exact ⟨_, rfl⟩
  · intro e he
    subst he
    rfl
  · intro he
    subst he
    rfl
  · intro apiKey fs1 fs2 ts1 ts2 st modelFn promptO uidO hp hu hk
    cases fs1 <;> cases fs2 <;> simp [handleGemini, hp, hu, hk]

/-- Witness for claim C8's theorem: a concrete failing write is swallowed
(store unchanged, error logged) and the reply is still produced. -/
theorem save_message_best_effort_witness :
    saveMessage (some "disk full") [] "u8" "user" "hola" 3 =
      Except.ok ([], some "disk full")
    ∧ (handleGemini none (some "disk full") (some "disk full") 0 1 []
        (fun _ _ _ => Except.error "x") (some "hola")
        (some "u8")).response.success = true := by
  have h := save_message_best_effort (some "disk full") [] "u8" "user" "hola" 3
  exact ⟨h.2.1 "disk full" rfl,
    (h.2.2.2 none (some "disk full") (some "disk full") 0 1 []
      (fun _ _ _ => Except.error "x") (some "hola") (some "u8")
      (by decide) (by decide) (by decide)).1⟩

/-! ## Claim C9 -/

/-- Claim C9 counterexample: an accepted invocation on the demo path
performs zero store reads and hands no history to anything — the handler
returns before the history fetch — refuting "re-reads the full stored
thread ... including on the demo/fallback path". -/
theorem demo_path_reads_nothing_counterexample :
    (handleGemini none none none 0 1 [⟨"u7", "user", "older question", 0⟩]
        (fun _ _ _ => Except.error "unreachable") (some "hello")
        (some "u7")).response.success = true
    ∧ (handleGemini none none none 0 1 [⟨"u7", "user", "older question", 0⟩]
        (fun _ _ _ => Except.error "unreachable") (some "hello")
        (some "u7")).response.isDemo = some true
    ∧ (handleGemini none none none 0 1 [⟨"u7", "user", "older question", 0⟩]
        (fun _ _ _ => Except.error "unreachable") (some "hello")
        (some "u7")).effects.historyReads = []
    ∧ (handleGemini none none none 0 1 [⟨"u7", "user", "older question", 0⟩]
        (fun _ _ _ => Except.error "unreachable") (some "hello")
        (some "u7")).effects.historyUsed = none :=
  ⟨rfl, rfl, rfl, rfl⟩

/-- Claim C9 (amended): every accepted non-demo invocation re-reads the full
stored thread of the uid at request time — exactly one history read whose
projection is computed from the store as it stands after the just-persisted
prompt, with no cross-request caching — while the demo path performs no
store read at all. -/
theorem fresh_history_every_request
    (apiKey : String) (fs2 : Option String) (ts1 ts2 : Nat)
    (store : List StoredTurn)
    (modelFn : List HistEntry → GenerationBudget → String → Except String String)
    (p u : String)
    (hp : falsyStr (some p) = false) (hu : falsyStr (some u) = false) :
    (isDemoMode (some apiKey) = false →
      (handleGemini (some apiKey) none fs2 ts1 ts2 store modelFn
          (some p) (some u)).effects.historyReads = [u]
      ∧ (handleGemini (some apiKey) none fs2 ts1 ts2 store modelFn
          (some p) (some u)).effects.historyUsed =
          some (project u (store ++ [⟨u, "user", p, ts1⟩])))
    ∧ (isDemoMode (some apiKey) = true →
      (handleGemini (some apiKey) none fs2 ts1 ts2 store modelFn
          (some p) (some u)).effects.historyReads = []
      ∧ (handleGemini (some apiKey) none fs2 ts1 ts2 store modelFn
          (some p) (some u)).effects.historyUsed = none) := by
  constructor
  · intro hk
    cases hm : modelFn (project u (store ++ [⟨u, "user", p, ts1⟩]))
        (generationConfig p) p with
    | error e => simp [handleGemini, hp, hu, hk, hm]
    | ok t => cases fs2 <;> simp [handleGemini, hp, hu, hk, hm]
  · intro hk
    cases fs2 <;> simp [handleGemini, hp, hu, hk]

/-- Witness for claim C9's amended theorem: a concrete non-demo request
whose transcript is recomputed from the current store (prior turns in
timestamp order, current prompt excluded). -/
theorem fresh_history_every_request_witness :
    (handleGemini (some "real") none none 5 6
        [⟨"u3", "user", "earlier", 1⟩, ⟨"u3", "assistant", "sure", 2⟩]
        (fun _ _ _ => Except.ok "answer") (some "follow up")
        (some "u3")).effects.historyUsed =
      some [⟨"user", "earlier"⟩, ⟨"model", "sure"⟩] := by
  have h := fresh_history_every_request "real" none 5 6
    [⟨"u3", "user", "earlier", 1⟩, ⟨"u3", "assistant", "sure", 2⟩]
    (fun _ _ _ => Except.ok "answer") "follow up" "u3" (by decide) (by decide)
  rw [(h.1 (by decide)).2]
  decide
